import Mathlib

/-!
Shallow embedding of the misc-api Notion <-> Google Keep sync core
(src/lib/sync-state.ts, src/api/notion/webhook.ts, src/api/cron/poll-keep.ts).

Modelling conventions:
* Wall-clock instants and Keep `updateTime` markers are epoch milliseconds
  (`Int`).  The source stores Keep markers as ISO strings and compares them
  only through `new Date(s).getTime()`; we embed the parsed value directly.
  An absent (`undefined`) marker parses to `NaN`, and every JS comparison
  with `NaN` is false; we model such a marker as `none` and give the
  comparison used by the code (`dateLE`) the same semantics.
* Notion `last_edited_time` markers are carried as opaque `String`s: the
  source stores them into the mapping but never compares or parses them.
* The Vercel KV store is modelled as the pair of key spaces the source
  uses: the individual `sync:mapping:{id}` records and the `sync:state`
  blob (which holds `lastPolledAt` and the `mappings` object keyed by
  Notion page id).  JS object key/value assignment keeps the insertion
  order of keys, which `recordSet` reproduces on association lists.
* External I/O (Notion page fetch, Notion page create/update, Keep note
  upsert) is supplied by an environment of response functions; a rejected
  promise is an `Except.error`.  A KV rejection inside `upsertMapping` is
  modelled by `upsertExc` returning the thrown message; it is modelled as
  occurring on the first `kv.set`, before any mutation.
* The HTTP method / signature / cron-secret guards are outside the spec
  scope; the handlers are embedded from the point at which the payload has
  been accepted.
-/

namespace MiscApi

/-- Origin tag: which side a change event comes from (types.ts
`lastWriteOrigin: "notion" | "keep"`). -/
inductive Origin where
  | notion
  | keep
deriving DecidableEq, Repr

/-- types.ts `SyncMapping`.  `lastSyncedKeepUpdateTime` is the parsed
epoch-ms value of the stored ISO string (`none` when the stored
`note.updateTime!` was `undefined`). -/
structure SyncMapping where
  notionPageId : String
  keepNoteName : String
  lastSyncedNotionEditedTime : String
  lastSyncedKeepUpdateTime : Option Int
  lastWriteOrigin : Origin
  lastWriteTimestamp : Int
deriving DecidableEq, Repr

/-- types.ts `SyncState`: the `sync:state` KV blob.  `mappings` is the JS
object keyed by Notion page id, modelled as an association list in key
insertion order. -/
structure SyncState where
  lastPolledAt : Int
  mappings : List (String × SyncMapping)
deriving DecidableEq, Repr

/-- The two KV key spaces used by sync-state.ts: the individual
`sync:mapping:{notionPageId}` records and the `sync:state` blob. -/
structure Store where
  records : List (String × SyncMapping)
  state : SyncState
deriving DecidableEq, Repr

/-- JS object read `obj[k]`. -/
def recordGet (l : List (String × SyncMapping)) (k : String) : Option SyncMapping :=
  match l.find? (fun p => p.1 == k) with
  | some p => some p.2
  | none => none

/-- JS object write `obj[k] = v`: replaces the value at an existing key in
place, otherwise appends the new key (JS insertion order). -/
def recordSet (l : List (String × SyncMapping)) (k : String) (v : SyncMapping) :
    List (String × SyncMapping) :=
  match l with
  | [] => [(k, v)]
  | p :: rest => if p.1 == k then (k, v) :: rest else p :: recordSet rest k v

/-- JS `delete obj[k]`. -/
def recordDel (l : List (String × SyncMapping)) (k : String) :
    List (String × SyncMapping) :=
  match l with
  | [] => []
  | p :: rest => if p.1 == k then rest else p :: recordDel rest k

/-- sync-state.ts `getSyncState` (the `|| {lastPolledAt: 0, mappings: {}}`
default is folded into the initial `Store` value). -/
def getSyncState (s : Store) : SyncState := s.state

/-- sync-state.ts `updateLastPolled`. -/
def updateLastPolled (s : Store) (timestamp : Int) : Store :=
  let state := getSyncState s
  { s with state := { state with lastPolledAt := timestamp } }

/-- sync-state.ts `getMapping`: reads the individual
`sync:mapping:{notionPageId}` record. -/
def getMapping (s : Store) (notionPageId : String) : Option SyncMapping :=
  recordGet s.records notionPageId

/-- sync-state.ts `getMappingByKeepName`: scans `state.mappings` with
`Object.keys(state.mappings).find(...)` for the first entry whose
`keepNoteName` matches, then re-reads it through `getMapping`. -/
def getMappingByKeepName (s : Store) (keepNoteName : String) : Option SyncMapping :=
  match (getSyncState s).mappings.find? (fun p => p.2.keepNoteName == keepNoteName) with
  | none => none
  | some p => getMapping s p.1

/-- Number of `state.mappings` entries examined by the
`Object.keys(state.mappings).find(...)` scan inside
`getMappingByKeepName`: the position of the first match, or the whole
length when no entry matches. -/
def scanStepsAux (l : List (String × SyncMapping)) (keepNoteName : String) : Nat :=
  match l with
  | [] => 0
  | p :: rest =>
    if p.2.keepNoteName == keepNoteName then 1 else 1 + scanStepsAux rest keepNoteName

/-- Cost instrumentation of `getMappingByKeepName`: how many mapping
entries its linear `find` examines for a given lookup. -/
def getMappingByKeepNameScanSteps (s : Store) (keepNoteName : String) : Nat :=
  scanStepsAux (getSyncState s).mappings keepNoteName

/-- sync-state.ts `getAllMappings`. -/
def getAllMappings (s : Store) : List SyncMapping :=
  (getSyncState s).mappings.map (fun p => p.2)

/-- sync-state.ts `upsertMapping`: writes the individual record, then
rewrites the `sync:state` blob with the mapping stored under its
`notionPageId` key. -/
def upsertMapping (s : Store) (mapping : SyncMapping) : Store :=
  let records := recordSet s.records mapping.notionPageId mapping
  let state := getSyncState { s with records := records }
  { records := records,
    state := { state with
      mappings := recordSet state.mappings mapping.notionPageId mapping } }

/-- sync-state.ts `deleteMapping`. -/
def deleteMapping (s : Store) (notionPageId : String) : Store :=
  let records := recordDel s.records notionPageId
  let state := getSyncState { s with records := records }
  { records := records,
    state := { state with mappings := recordDel state.mappings notionPageId } }

/-- sync-state.ts `shouldSkipDueToCooldown`.  `now` is the ambient
`Date.now()`; the source's default `cooldownMs = 30000` is passed
explicitly at both call sites of the embedding. -/
def shouldSkipDueToCooldown (now : Int) (mapping : Option SyncMapping)
    (origin : Origin) (cooldownMs : Int) : Bool :=
  match mapping with
  | none => false
  | some m =>
    if m.lastWriteOrigin ≠ origin then false
    else decide (now - m.lastWriteTimestamp < cooldownMs)

/-- types.ts `NotionPage`, restricted to the fields the handlers read
(`properties` is consumed only through the translator, which the
environment supplies as an abstract function). -/
structure NotionPage where
  id : String
  last_edited_time : String
deriving DecidableEq, Repr

/-- types.ts `KeepNote`, restricted to the fields the handlers read.
`bodyText` is the optional chain `note.body?.text?.text`;
`updateTime` is the parsed epoch-ms value (`none` for `undefined`).
`trashed` models the truthiness of the optional `trashed` flag. -/
structure KeepNote where
  name : String
  title : Option String
  bodyText : Option String
  updateTime : Option Int
  trashed : Bool
deriving DecidableEq, Repr

/-- The webhook payload fields read by the handler (types.ts
`NotionWebhookPayload`). -/
structure NotionWebhookPayload where
  object : String
  id : String
  type : String
deriving DecidableEq, Repr

/-- JS `a || b` on an optional string: `undefined` and `""` are falsy. -/
def jsStrOr (s : Option String) (dflt : String) : String :=
  match s with
  | some t => if t = "" then dflt else t
  | none => dflt

/-- The comparison `new Date(a).getTime() <= new Date(b).getTime()` used
by poll-keep.ts: a missing marker parses to `NaN` and every comparison
with `NaN` is false. -/
def dateLE (a b : Option Int) : Bool :=
  match a, b with
  | some x, some y => decide (x ≤ y)
  | _, _ => false

/-- webhook.ts `existingMapping?.keepNoteName || null`. -/
def existingNameOrNull (mapping : Option SyncMapping) : Option String :=
  match mapping with
  | some m => if m.keepNoteName = "" then none else some m.keepNoteName
  | none => none

/-- Terminal outcomes of the webhook handler, one per response of
webhook.ts (after the method/signature guards, which are out of the
spec's scope). -/
inductive WebhookOutcome where
  | notPage
  | pageDeleted
  | skippedCooldown
  | synced (keepNoteName : String)
  | failed (message : String)
deriving DecidableEq, Repr

/-- Result of one webhook invocation: the response outcome, the store
after the invocation, and how many Keep write calls (`upsertKeepNote`)
were issued. -/
structure WebhookResult where
  outcome : WebhookOutcome
  store : Store
  keepWriteCalls : Nat
deriving DecidableEq, Repr

/-- Environment of a webhook invocation: the ambient clock and the
responses of the external collaborators.  `Fields` is the (opaque)
shape produced by `notionToKeep`; `upsertExc` gives the message of a KV
rejection inside `upsertMapping`, or `none` when the KV write succeeds. -/
structure WebhookEnv (Fields : Type) where
  now : Int
  getNotionPage : String → Except String NotionPage
  notionToKeep : NotionPage → Fields
  upsertKeepNote : Option String → Fields → Except String KeepNote
  upsertExc : SyncMapping → Option String

/-- The mapping record written by webhook.ts after a successful Keep
write. -/
def webhookMapping (now : Int) (pageId : String) (page : NotionPage)
    (savedNote : KeepNote) : SyncMapping :=
  { notionPageId := pageId
    keepNoteName := savedNote.name
    lastSyncedNotionEditedTime := page.last_edited_time
    lastSyncedKeepUpdateTime := savedNote.updateTime
    lastWriteOrigin := Origin.notion
    lastWriteTimestamp := now }

/-- webhook.ts `handler`, embedded from the point where the payload has
been accepted (method, signature and `object !== "page"` guards
included; auth preconditions are out of the spec's scope). -/
def webhookHandler {Fields : Type} (env : WebhookEnv Fields) (store : Store)
    (payload : NotionWebhookPayload) : WebhookResult :=
  if payload.object ≠ "page" then
    { outcome := WebhookOutcome.notPage, store := store, keepWriteCalls := 0 }
  else if payload.type = "page_deleted" then
    { outcome := WebhookOutcome.pageDeleted, store := store, keepWriteCalls := 0 }
  else
    match env.getNotionPage payload.id with
    | Except.error e =>
      { outcome := WebhookOutcome.failed e, store := store, keepWriteCalls := 0 }
    | Except.ok page =>
      let existingMapping := getMapping store payload.id
      if shouldSkipDueToCooldown env.now existingMapping Origin.notion 30000 then
        { outcome := WebhookOutcome.skippedCooldown, store := store, keepWriteCalls := 0 }
      else
        let keepNote := env.notionToKeep page
        match env.upsertKeepNote (existingNameOrNull existingMapping) keepNote with
        | Except.error e =>
          { outcome := WebhookOutcome.failed e, store := store, keepWriteCalls := 1 }
        | Except.ok savedNote =>
          let mapping := webhookMapping env.now payload.id page savedNote
          match env.upsertExc mapping with
          | some e =>
            { outcome := WebhookOutcome.failed e, store := store, keepWriteCalls := 1 }
          | none =>
            { outcome := WebhookOutcome.synced savedNote.name
              store := upsertMapping store mapping
              keepWriteCalls := 1 }

/-- Which write poll-keep.ts issued for a note: `updateNotionPage` on an
existing mapping, `createNotionPage` otherwise. -/
inductive WriteKind where
  | created
  | updated
deriving DecidableEq, Repr

/-- Environment of one poll invocation: the ambient clock, the Notion
database id, and the responses of the external collaborators.  `Props`
is the (opaque) Notion properties shape produced by the translator;
`propsEmpty p` models `Object.keys(p).length === 0`. -/
structure PollEnv (Props : Type) where
  now : Int
  databaseId : String
  keepToNotion : KeepNote → Props
  propsEmpty : Props → Bool
  buildDefaultNotionProperties : String → String → Props
  updateNotionPage : String → Props → Except String NotionPage
  createNotionPage : String → Props → Except String NotionPage
  upsertExc : SyncMapping → Option String

/-- Running state of the poll loop of poll-keep.ts: the store plus the
`processed`/`created`/`updated`/`skipped` counters and the
`errors: [{id, error}]` list. -/
structure PollAcc where
  store : Store
  processed : Nat
  created : Nat
  updated : Nat
  skipped : Nat
  errors : List (String × String)
deriving DecidableEq, Repr

/-- The version check of poll-keep.ts lines 76-87: with an existing
mapping, `currentUpdateTime <= lastSyncedTime`; without one, proceed. -/
def noteIsUnchanged (existingMapping : Option SyncMapping) (note : KeepNote) : Bool :=
  match existingMapping with
  | some m => dateLE note.updateTime m.lastSyncedKeepUpdateTime
  | none => false

/-- The cross-write of poll-keep.ts lines 92-123: update the mapped
Notion page, or create a new one (falling back to the default
properties when the translated ones are empty), returning the written
page, the Notion page id for the mapping, and which counter to bump. -/
def noteWrite {Props : Type} (env : PollEnv Props)
    (existingMapping : Option SyncMapping) (note : KeepNote) :
    Except String (NotionPage × String × WriteKind) :=
  let notionProps := env.keepToNotion note
  match existingMapping with
  | some m =>
    match env.updateNotionPage m.notionPageId notionProps with
    | Except.ok page => Except.ok (page, m.notionPageId, WriteKind.updated)
    | Except.error e => Except.error e
  | none =>
    let properties :=
      if env.propsEmpty notionProps then
        env.buildDefaultNotionProperties (jsStrOr note.title "Untitled")
          (jsStrOr note.bodyText "")
      else notionProps
    match env.createNotionPage env.databaseId properties with
    | Except.ok page => Except.ok (page, page.id, WriteKind.created)
    | Except.error e => Except.error e

/-- poll-keep.ts `note.name || "unknown"` in the catch clause. -/
def errorId (note : KeepNote) : String :=
  if note.name = "" then "unknown" else note.name

/-- One iteration of the poll loop of poll-keep.ts (lines 53-144): the
per-note try/catch body, folded over the note list by the handler.  A
thrown error (write rejection or KV rejection inside `upsertMapping`)
lands in the `errors` list and touches nothing else. -/
def processNote {Props : Type} (env : PollEnv Props) (acc : PollAcc)
    (note : KeepNote) : PollAcc :=
  if note.trashed then acc
  else if note.name = "" then acc
  else
    let existingMapping := getMappingByKeepName acc.store note.name
    if shouldSkipDueToCooldown env.now existingMapping Origin.keep 30000 then
      { acc with skipped := acc.skipped + 1 }
    else if noteIsUnchanged existingMapping note then
      { acc with skipped := acc.skipped + 1 }
    else
      match noteWrite env existingMapping note with
      | Except.error e =>
        { acc with errors := acc.errors ++ [(errorId note, e)] }
      | Except.ok (notionPage, notionPageId, kind) =>
        let acc1 :=
          match kind with
          | WriteKind.updated => { acc with updated := acc.updated + 1 }
          | WriteKind.created => { acc with created := acc.created + 1 }
        let mapping : SyncMapping :=
          { notionPageId := notionPageId
            keepNoteName := note.name
            lastSyncedNotionEditedTime := notionPage.last_edited_time
            lastSyncedKeepUpdateTime := note.updateTime
            lastWriteOrigin := Origin.keep
            lastWriteTimestamp := env.now }
        match env.upsertExc mapping with
        | some e =>
          { acc1 with errors := acc1.errors ++ [(errorId note, e)] }
        | none =>
          { acc1 with
            store := upsertMapping acc1.store mapping
            processed := acc1.processed + 1 }

/-- The zeroed counters the poll handler starts from. -/
def pollInit (store : Store) : PollAcc :=
  { store := store, processed := 0, created := 0, updated := 0, skipped := 0,
    errors := [] }

/-- The `updateLastPolled(Date.now())` step after the loop. -/
def pollFinalize {Props : Type} (env : PollEnv Props) (acc : PollAcc) : PollAcc :=
  { acc with store := updateLastPolled acc.store env.now }

/-- poll-keep.ts `handler`, embedded from the point where the note list
has been fetched: fold the per-note body over the notes, then record the
poll timestamp. -/
def pollKeepHandler {Props : Type} (env : PollEnv Props) (store : Store)
    (notes : List KeepNote) : PollAcc :=
  pollFinalize env (notes.foldl (processNote env) (pollInit store))

/-! Concrete instances used to evaluate the handlers on specific inputs. -/

/-- The empty store (`kv.get` returning null defaults to
`{lastPolledAt: 0, mappings: {}}`). -/
def emptyStore : Store :=
  { records := [], state := { lastPolledAt := 0, mappings := [] } }

/-- A store holding exactly one mapping, stored consistently in both key
spaces. -/
def storeOf (m : SyncMapping) : Store :=
  { records := [(m.notionPageId, m)],
    state := { lastPolledAt := 0, mappings := [(m.notionPageId, m)] } }

/-- Concrete Keep note as returned by a Keep write. -/
def exSavedNote : KeepNote :=
  { name := "notes/n1", title := some "T", bodyText := none,
    updateTime := some 500, trashed := false }

/-- Concrete Notion page with version marker `t1`. -/
def exPage : NotionPage := { id := "p1", last_edited_time := "t1" }

/-- Concrete accepted page-updated payload for page `p1`. -/
def exPayload : NotionWebhookPayload :=
  { object := "page", id := "p1", type := "page_updated" }

/-- Webhook environment with every external call succeeding. -/
def mkWebhookEnv (now : Int) (page : NotionPage) : WebhookEnv Unit :=
  { now := now
    getNotionPage := fun _ => Except.ok page
    notionToKeep := fun _ => ()
    upsertKeepNote := fun _ _ => Except.ok exSavedNote
    upsertExc := fun _ => none }

/-- Webhook environment whose Keep write is rejected. -/
def mkWebhookEnvKeepDown (now : Int) (page : NotionPage) : WebhookEnv Unit :=
  { mkWebhookEnv now page with upsertKeepNote := fun _ _ => Except.error "keep down" }

/-- Mapping recorded after a keep-origin write at instant 1000 for the
pair `p1`/`notes/n1`, both markers matching `exPage`/`exSavedNote`. -/
def exMappingKeepWrote : SyncMapping :=
  { notionPageId := "p1", keepNoteName := "notes/n1",
    lastSyncedNotionEditedTime := "t1", lastSyncedKeepUpdateTime := some 500,
    lastWriteOrigin := Origin.keep, lastWriteTimestamp := 1000 }

/-- Mapping matching the spec scenario of claim C4: `doc1`, left version
`t1`, `lastWriteOrigin = left`, last write at instant 0. -/
def exMappingC4 : SyncMapping :=
  { notionPageId := "doc1", keepNoteName := "notes/n1",
    lastSyncedNotionEditedTime := "t1", lastSyncedKeepUpdateTime := some 500,
    lastWriteOrigin := Origin.notion, lastWriteTimestamp := 0 }

/-- Page `doc1` at version `t1` for the C4 scenario. -/
def exPageC4 : NotionPage := { id := "doc1", last_edited_time := "t1" }

/-- Accepted page-updated payload for `doc1`. -/
def exPayloadC4 : NotionWebhookPayload :=
  { object := "page", id := "doc1", type := "page_updated" }

/-- Accepted page-deleted payload. -/
def exPayloadDeleted : NotionWebhookPayload :=
  { object := "page", id := "p1", type := "page_deleted" }

/-- Poll environment (with the translated properties modelled as the
note's name) where every external call succeeds. -/
def pollEnvOk : PollEnv String :=
  { now := 1000
    databaseId := "db1"
    keepToNotion := fun n => n.name
    propsEmpty := fun _ => false
    buildDefaultNotionProperties := fun _ _ => "default"
    updateNotionPage := fun _ _ => Except.ok exPage
    createNotionPage := fun _ _ => Except.ok exPage
    upsertExc := fun _ => none }

/-- Poll environment whose Notion create rejects for the note named
`notes/bad` and succeeds otherwise. -/
def pollEnvBadCreate : PollEnv String :=
  { pollEnvOk with
    createNotionPage := fun _ props =>
      if props = "notes/bad" then Except.error "boom" else Except.ok exPage }

/-- Poll environment where every KV upsert inside `upsertMapping` is
rejected. -/
def pollEnvKvDown : PollEnv String :=
  { pollEnvOk with upsertExc := fun _ => some "kv unavailable" }

/-- Untrashed note `notes/n1` carrying the already-synced marker 500. -/
def exNoteReplay : KeepNote :=
  { name := "notes/n1", title := some "T", bodyText := none,
    updateTime := some 500, trashed := false }

/-- Untrashed note `notes/bad` (its create is rejected by
`pollEnvBadCreate`). -/
def exNoteBad : KeepNote :=
  { name := "notes/bad", title := some "B", bodyText := none,
    updateTime := some 10, trashed := false }

/-- Untrashed note `notes/ok` with no special behaviour attached. -/
def exNoteOk : KeepNote :=
  { name := "notes/ok", title := some "O", bodyText := none,
    updateTime := some 10, trashed := false }

/-- Mapping recorded after a notion-origin write at instant 1000 for the
pair `p1`/`notes/n1`, markers matching `exPage`/`exSavedNote`. -/
def exMappingNotionWrote : SyncMapping :=
  { notionPageId := "p1", keepNoteName := "notes/n1",
    lastSyncedNotionEditedTime := "t1", lastSyncedKeepUpdateTime := some 500,
    lastWriteOrigin := Origin.notion, lastWriteTimestamp := 1000 }

/-- A trashed note. -/
def exNoteTrashed : KeepNote :=
  { name := "notes/tr", title := some "X", bodyText := none,
    updateTime := some 10, trashed := true }

/-- A mapping with both identifiers and a keep marker fixed by
arguments, used to build multi-entry stores. -/
def mkMapping (pid kname : String) : SyncMapping :=
  { notionPageId := pid, keepNoteName := kname,
    lastSyncedNotionEditedTime := "t0", lastSyncedKeepUpdateTime := some 0,
    lastWriteOrigin := Origin.keep, lastWriteTimestamp := 0 }

/-- Store holding three mappings, none of which is named `notes/zz`. -/
def exStoreThree : Store :=
  { records := [("pa", mkMapping "pa" "notes/a1"),
                ("pb", mkMapping "pb" "notes/a2"),
                ("pc", mkMapping "pc" "notes/a3")],
    state := { lastPolledAt := 0,
               mappings := [("pa", mkMapping "pa" "notes/a1"),
                            ("pb", mkMapping "pb" "notes/a2"),
                            ("pc", mkMapping "pc" "notes/a3")] } }

/-! Helper lemmas shared by the claim theorems. -/

lemma shouldSkip_origin_ne {now cooldownMs : Int} {m : SyncMapping} {origin : Origin}
    (h : m.lastWriteOrigin ≠ origin) :
    shouldSkipDueToCooldown now (some m) origin cooldownMs = false := by
  simp [shouldSkipDueToCooldown, h]

lemma shouldSkip_origin_eq {now cooldownMs : Int} {m : SyncMapping} {origin : Origin}
    (h : origin = m.lastWriteOrigin) :
    shouldSkipDueToCooldown now (some m) origin cooldownMs
      = decide (now - m.lastWriteTimestamp < cooldownMs) := by
  subst h
  simp [shouldSkipDueToCooldown]

lemma processNote_skip {Props : Type} (env : PollEnv Props) (acc : PollAcc)
    (note : KeepNote) (h1 : note.trashed = false) (h2 : ¬ note.name = "")
    (h3 : noteIsUnchanged (getMappingByKeepName acc.store note.name) note = true) :
    processNote env acc note = { acc with skipped := acc.skipped + 1 } := by
  unfold processNote
  simp only [h1, Bool.false_eq_true, if_false, h2, ite_false, h3, if_true]
  split <;> rfl

lemma processNote_write_error {Props : Type} (env : PollEnv Props) (acc : PollAcc)
    (note : KeepNote) (e : String) (h1 : note.trashed = false)
    (h2 : ¬ note.name = "")
    (h3 : shouldSkipDueToCooldown env.now (getMappingByKeepName acc.store note.name)
            Origin.keep 30000 = false)
    (h4 : noteIsUnchanged (getMappingByKeepName acc.store note.name) note = false)
    (h5 : noteWrite env (getMappingByKeepName acc.store note.name) note
            = Except.error e) :
    processNote env acc note
      = { acc with errors := acc.errors ++ [(errorId note, e)] } := by
  unfold processNote
  simp only [h1, Bool.false_eq_true, if_false, h2, ite_false, h3, h4, h5]

lemma webhookHandler_page_deleted {Fields : Type} (env : WebhookEnv Fields)
    (store : Store) (payload : NotionWebhookPayload)
    (h1 : payload.object = "page") (h2 : payload.type = "page_deleted") :
    webhookHandler env store payload
      = { outcome := WebhookOutcome.pageDeleted, store := store, keepWriteCalls := 0 } := by
  simp [webhookHandler, h1, h2]

lemma webhookHandler_cooldown {Fields : Type} (env : WebhookEnv Fields)
    (store : Store) (payload : NotionWebhookPayload) (page : NotionPage)
    (h1 : payload.object = "page") (h2 : ¬ payload.type = "page_deleted")
    (h3 : env.getNotionPage payload.id = Except.ok page)
    (h4 : shouldSkipDueToCooldown env.now (getMapping store payload.id)
            Origin.notion 30000 = true) :
    webhookHandler env store payload
      = { outcome := WebhookOutcome.skippedCooldown, store := store, keepWriteCalls := 0 } := by
  simp [webhookHandler, h1, h2, h3, h4]

lemma webhookHandler_applied {Fields : Type} (env : WebhookEnv Fields)
    (store : Store) (payload : NotionWebhookPayload) (page : NotionPage)
    (savedNote : KeepNote)
    (h1 : payload.object = "page") (h2 : ¬ payload.type = "page_deleted")
    (h3 : env.getNotionPage payload.id = Except.ok page)
    (h4 : shouldSkipDueToCooldown env.now (getMapping store payload.id)
            Origin.notion 30000 = false)
    (h5 : env.upsertKeepNote (existingNameOrNull (getMapping store payload.id))
            (env.notionToKeep page) = Except.ok savedNote)
    (h6 : env.upsertExc (webhookMapping env.now payload.id page savedNote) = none) :
    webhookHandler env store payload
      = { outcome := WebhookOutcome.synced savedNote.name
          store := upsertMapping store (webhookMapping env.now payload.id page savedNote)
          keepWriteCalls := 1 } := by
  simp [webhookHandler, h1, h2, h3, h4, h5, h6]

lemma webhookHandler_write_failed {Fields : Type} (env : WebhookEnv Fields)
    (store : Store) (payload : NotionWebhookPayload) (page : NotionPage) (e : String)
    (h1 : payload.object = "page") (h2 : ¬ payload.type = "page_deleted")
    (h3 : env.getNotionPage payload.id = Except.ok page)
    (h4 : shouldSkipDueToCooldown env.now (getMapping store payload.id)
            Origin.notion 30000 = false)
    (h5 : env.upsertKeepNote (existingNameOrNull (getMapping store payload.id))
            (env.notionToKeep page) = Except.error e) :
    webhookHandler env store payload
      = { outcome := WebhookOutcome.failed e, store := store, keepWriteCalls := 1 } := by
  simp [webhookHandler, h1, h2, h3, h4, h5]

/-- C5: for every mapping `m` and origin equal to `m.lastWriteOrigin` and
every cooldown duration, `shouldSkipDueToCooldown` returns true iff
`now - m.lastWriteTimestamp < cooldownMs`; at an elapsed time of exactly
the cooldown duration it returns false (not suppressed). -/
theorem c5_cooldown_guard_boundary (now cooldownMs : Int) (m : SyncMapping)
    (origin : Origin) (h : origin = m.lastWriteOrigin) :
    ((shouldSkipDueToCooldown now (some m) origin cooldownMs = true)
        ↔ now - m.lastWriteTimestamp < cooldownMs)
      ∧ (now - m.lastWriteTimestamp = cooldownMs →
          shouldSkipDueToCooldown now (some m) origin cooldownMs = false) := by
  rw [shouldSkip_origin_eq h]
  constructor
  · exact decide_eq_true_iff
  · intro heq
    simp [heq]

/-- Witness for C5 at the exact boundary: elapsed time 30000 with cooldown
30000 is not suppressed. -/
theorem c5_cooldown_guard_boundary_witness :
    Origin.notion = exMappingC4.lastWriteOrigin
      ∧ (((shouldSkipDueToCooldown 30000 (some exMappingC4) Origin.notion 30000 = true)
            ↔ (30000 : Int) - exMappingC4.lastWriteTimestamp < 30000)
          ∧ ((30000 : Int) - exMappingC4.lastWriteTimestamp = 30000 →
              shouldSkipDueToCooldown 30000 (some exMappingC4) Origin.notion 30000 = false)) :=
  ⟨rfl, c5_cooldown_guard_boundary 30000 30000 exMappingC4 Origin.notion rfl⟩

/-- C8: a left-side `page_deleted` notification is acknowledged with no
Keep write call and no change to any mapping: the store is returned
untouched. -/
theorem c8_deletion_noop (Fields : Type) (env : WebhookEnv Fields) (store : Store)
    (payload : NotionWebhookPayload) (h1 : payload.object = "page")
    (h2 : payload.type = "page_deleted") :
    webhookHandler env store payload
      = { outcome := WebhookOutcome.pageDeleted, store := store, keepWriteCalls := 0 } :=
  webhookHandler_page_deleted env store payload h1 h2

/-- Witness for C8 on a concrete deletion event and a store holding one
mapping. -/
theorem c8_deletion_noop_witness :
    exPayloadDeleted.object = "page" ∧ exPayloadDeleted.type = "page_deleted"
      ∧ webhookHandler (mkWebhookEnv 0 exPage) (storeOf exMappingKeepWrote) exPayloadDeleted
          = { outcome := WebhookOutcome.pageDeleted, store := storeOf exMappingKeepWrote,
              keepWriteCalls := 0 } :=
  ⟨rfl, rfl,
    c8_deletion_noop Unit (mkWebhookEnv 0 exPage) (storeOf exMappingKeepWrote)
      exPayloadDeleted rfl rfl⟩

/-- C1, counterexample: the claim fails on the left (Notion) side.  A
webhook event for page `p1` at version `t1` is applied at instant 1000;
delivering the exact same event (same documentId, same version marker)
again at instant 31000 — after the cooldown window — is applied a second
time, issuing a second Keep write, instead of terminating
skipped-unchanged. -/
theorem c1_replay_counterexample :
    (webhookHandler (mkWebhookEnv 1000 exPage) emptyStore exPayload).outcome
        = WebhookOutcome.synced "notes/n1"
      ∧ (webhookHandler (mkWebhookEnv 31000 exPage)
            (webhookHandler (mkWebhookEnv 1000 exPage) emptyStore exPayload).store
            exPayload).outcome = WebhookOutcome.synced "notes/n1"
      ∧ (webhookHandler (mkWebhookEnv 31000 exPage)
            (webhookHandler (mkWebhookEnv 1000 exPage) emptyStore exPayload).store
            exPayload).keepWriteCalls = 1 :=
  ⟨rfl, rfl, rfl⟩

/-- C1, amended: replay idempotence holds on the right (Keep) side only.
Re-processing a poll event whose `updateTime` equals the stored
`lastSyncedKeepUpdateTime` increments `skipped` and changes nothing else
— no write, no counter, no mapping mutation — whether it lands in the
cooldown branch or in the version-check branch.  (On the Notion side the
webhook has no version check: a replay inside the cooldown window is
skipped-cooldown, and a replay after the window is applied again, as the
counterexample shows.) -/
theorem c1_replay_skipped_keep_side (Props : Type) (env : PollEnv Props)
    (acc : PollAcc) (note : KeepNote) (m : SyncMapping) (t : Int)
    (h1 : note.trashed = false) (h2 : ¬ note.name = "")
    (h3 : getMappingByKeepName acc.store note.name = some m)
    (h4 : note.updateTime = some t) (h5 : m.lastSyncedKeepUpdateTime = some t) :
    processNote env acc note = { acc with skipped := acc.skipped + 1 } := by
  apply processNote_skip env acc note h1 h2
  rw [h3]
  simp [noteIsUnchanged, dateLE, h4, h5]

/-- Witness for the amended C1 on a concrete replayed note. -/
theorem c1_replay_skipped_keep_side_witness :
    exNoteReplay.trashed = false
      ∧ getMappingByKeepName (pollInit (storeOf exMappingKeepWrote)).store
          exNoteReplay.name = some exMappingKeepWrote
      ∧ processNote pollEnvOk (pollInit (storeOf exMappingKeepWrote)) exNoteReplay
          = { pollInit (storeOf exMappingKeepWrote) with
              skipped := (pollInit (storeOf exMappingKeepWrote)).skipped + 1 } :=
  ⟨rfl, rfl,
    c1_replay_skipped_keep_side String pollEnvOk (pollInit (storeOf exMappingKeepWrote))
      exNoteReplay exMappingKeepWrote 500 rfl (by decide) rfl rfl rfl⟩

/-- C2, counterexample: after a keep-origin applied write at instant 1000,
the echo event from the opposite side (a Notion webhook for the same
pair) at instant 6000 — well inside the 30 s cooldown window — is NOT
suppressed by the cooldown guard and is applied, issuing one Keep write;
the claim demands zero applied writes and outcome skipped-cooldown. -/
theorem c2_echo_counterexample :
    shouldSkipDueToCooldown 6000 (some exMappingKeepWrote) Origin.notion 30000 = false
      ∧ (webhookHandler (mkWebhookEnv 6000 exPage) (storeOf exMappingKeepWrote)
            exPayload).outcome = WebhookOutcome.synced "notes/n1"
      ∧ (webhookHandler (mkWebhookEnv 6000 exPage) (storeOf exMappingKeepWrote)
            exPayload).keepWriteCalls = 1 :=
  ⟨rfl, rfl, rfl⟩

/-- C2, amended: the cooldown guard never suppresses an opposite-side
echo — it returns false whenever the incoming origin differs from
`lastWriteOrigin`.  After a notion-origin write, the keep-side echo whose
`updateTime` equals the stored `lastSyncedKeepUpdateTime` is stopped by
the poll version check (skipped, zero writes) — not by the cooldown;
after a keep-origin write, the notion-side echo passes the guard and is
applied, written back to Keep. -/
theorem c2_loop_termination_amended :
    (∀ (now cooldownMs : Int) (m : SyncMapping) (origin : Origin),
        m.lastWriteOrigin ≠ origin →
        shouldSkipDueToCooldown now (some m) origin cooldownMs = false)
      ∧ (∀ (Props : Type) (env : PollEnv Props) (acc : PollAcc) (note : KeepNote)
            (m : SyncMapping) (t : Int),
          note.trashed = false → ¬ note.name = "" →
          getMappingByKeepName acc.store note.name = some m →
          m.lastWriteOrigin = Origin.notion →
          note.updateTime = some t → m.lastSyncedKeepUpdateTime = some t →
          processNote env acc note = { acc with skipped := acc.skipped + 1 })
      ∧ (∀ (Fields : Type) (env : WebhookEnv Fields) (store : Store)
            (payload : NotionWebhookPayload) (page : NotionPage)
            (savedNote : KeepNote) (m : SyncMapping),
          payload.object = "page" → ¬ payload.type = "page_deleted" →
          env.getNotionPage payload.id = Except.ok page →
          getMapping store payload.id = some m →
          m.lastWriteOrigin = Origin.keep →
          env.upsertKeepNote (existingNameOrNull (some m)) (env.notionToKeep page)
            = Except.ok savedNote →
          env.upsertExc (webhookMapping env.now payload.id page savedNote) = none →
          (webhookHandler env store payload).outcome
              = WebhookOutcome.synced savedNote.name
            ∧ (webhookHandler env store payload).keepWriteCalls = 1) := by
  refine ⟨?_, ?_, ?_⟩
  · intro now cooldownMs m origin h
    exact shouldSkip_origin_ne h
  · intro Props env acc note m t h1 h2 h3 hm h4 h5
    apply processNote_skip env acc note h1 h2
    rw [h3]
    simp [noteIsUnchanged, dateLE, h4, h5]
  · intro Fields env store payload page savedNote m h1 h2 h3 hmap hm h5 h6
    have h4 : shouldSkipDueToCooldown env.now (getMapping store payload.id)
        Origin.notion 30000 = false := by
      rw [hmap]
      exact shouldSkip_origin_ne (by simp [hm])
    have h5x : env.upsertKeepNote (existingNameOrNull (getMapping store payload.id))
        (env.notionToKeep page) = Except.ok savedNote := by
      rw [hmap]; exact h5
    rw [webhookHandler_applied env store payload page savedNote h1 h2 h3 h4 h5x h6]
    exact ⟨rfl, rfl⟩

/-- Witness for the amended C2, exercising all three conjuncts on the
concrete echo scenarios. -/
theorem c2_loop_termination_amended_witness :
    shouldSkipDueToCooldown 6000 (some exMappingKeepWrote) Origin.notion 30000 = false
      ∧ processNote pollEnvOk (pollInit (storeOf exMappingNotionWrote)) exNoteReplay
          = { pollInit (storeOf exMappingNotionWrote) with
              skipped := (pollInit (storeOf exMappingNotionWrote)).skipped + 1 }
      ∧ (webhookHandler (mkWebhookEnv 6000 exPage) (storeOf exMappingKeepWrote)
            exPayload).outcome = WebhookOutcome.synced exSavedNote.name
      ∧ (webhookHandler (mkWebhookEnv 6000 exPage) (storeOf exMappingKeepWrote)
            exPayload).keepWriteCalls = 1 := by
  refine ⟨?_, ?_, ?_, ?_⟩
  · exact c2_loop_termination_amended.1 6000 30000 exMappingKeepWrote Origin.notion
      (by decide)
  · exact c2_loop_termination_amended.2.1 String pollEnvOk
      (pollInit (storeOf exMappingNotionWrote)) exNoteReplay exMappingNotionWrote 500
      rfl (by decide) rfl rfl rfl rfl
  · exact (c2_loop_termination_amended.2.2 Unit (mkWebhookEnv 6000 exPage)
      (storeOf exMappingKeepWrote) exPayload exPage exSavedNote exMappingKeepWrote
      rfl (by decide) rfl rfl rfl rfl rfl).1
  · exact (c2_loop_termination_amended.2.2 Unit (mkWebhookEnv 6000 exPage)
      (storeOf exMappingKeepWrote) exPayload exPage exSavedNote exMappingKeepWrote
      rfl (by decide) rfl rfl rfl rfl rfl).2

/-- C3, counterexample: the staleness check does not apply on the left
side.  The store maps page `p1` with `lastSyncedNotionEditedTime = "t1"`;
a webhook event for `p1` still at version `t1` (not strictly newer),
arriving at instant 100000 — far outside any cooldown after the last
write at 1000 — is applied and issues a Keep write instead of
terminating skipped-unchanged. -/
theorem c3_staleness_counterexample :
    exMappingKeepWrote.lastSyncedNotionEditedTime = exPage.last_edited_time
      ∧ (webhookHandler (mkWebhookEnv 100000 exPage) (storeOf exMappingKeepWrote)
            exPayload).outcome = WebhookOutcome.synced "notes/n1"
      ∧ (webhookHandler (mkWebhookEnv 100000 exPage) (storeOf exMappingKeepWrote)
            exPayload).keepWriteCalls = 1 :=
  ⟨rfl, rfl, rfl⟩

/-- C3, amended: the staleness check exists only for right-origin (Keep)
events.  In the poll handler, a mapped note whose `updateTime` is not
strictly newer than the stored `lastSyncedKeepUpdateTime` terminates
skipped with no write and no mutation (first conjunct).  The Notion
webhook performs no version comparison: whenever the payload guards, the
page fetch, the cooldown check and the Keep write go through, the event
is applied — no hypothesis on any version marker is needed (second
conjunct). -/
theorem c3_staleness_keep_only_amended :
    (∀ (Props : Type) (env : PollEnv Props) (acc : PollAcc) (note : KeepNote)
        (m : SyncMapping),
      note.trashed = false → ¬ note.name = "" →
      getMappingByKeepName acc.store note.name = some m →
      shouldSkipDueToCooldown env.now (some m) Origin.keep 30000 = false →
      dateLE note.updateTime m.lastSyncedKeepUpdateTime = true →
      processNote env acc note = { acc with skipped := acc.skipped + 1 })
      ∧ (∀ (Fields : Type) (env : WebhookEnv Fields) (store : Store)
            (payload : NotionWebhookPayload) (page : NotionPage) (savedNote : KeepNote),
          payload.object = "page" → ¬ payload.type = "page_deleted" →
          env.getNotionPage payload.id = Except.ok page →
          shouldSkipDueToCooldown env.now (getMapping store payload.id)
            Origin.notion 30000 = false →
          env.upsertKeepNote (existingNameOrNull (getMapping store payload.id))
            (env.notionToKeep page) = Except.ok savedNote →
          env.upsertExc (webhookMapping env.now payload.id page savedNote) = none →
          webhookHandler env store payload
            = { outcome := WebhookOutcome.synced savedNote.name
                store := upsertMapping store
                  (webhookMapping env.now payload.id page savedNote)
                keepWriteCalls := 1 }) := by
  constructor
  · intro Props env acc note m h1 h2 h3 hcool hstale
    apply processNote_skip env acc note h1 h2
    rw [h3]
    simpa [noteIsUnchanged] using hstale
  · intro Fields env store payload page savedNote h1 h2 h3 h4 h5 h6
    exact webhookHandler_applied env store payload page savedNote h1 h2 h3 h4 h5 h6

/-- Witness for the amended C3: the stale keep-side note is skipped, and
the webhook applies the `p1`-at-`t1` event whose marker equals the stored
one. -/
theorem c3_staleness_keep_only_amended_witness :
    processNote pollEnvOk (pollInit (storeOf exMappingNotionWrote)) exNoteReplay
        = { pollInit (storeOf exMappingNotionWrote) with
            skipped := (pollInit (storeOf exMappingNotionWrote)).skipped + 1 }
      ∧ webhookHandler (mkWebhookEnv 100000 exPage) (storeOf exMappingKeepWrote) exPayload
          = { outcome := WebhookOutcome.synced exSavedNote.name
              store := upsertMapping (storeOf exMappingKeepWrote)
                (webhookMapping 100000 exPayload.id exPage exSavedNote)
              keepWriteCalls := 1 } :=
  ⟨c3_staleness_keep_only_amended.1 String pollEnvOk
      (pollInit (storeOf exMappingNotionWrote)) exNoteReplay exMappingNotionWrote
      rfl (by decide) rfl rfl rfl,
    c3_staleness_keep_only_amended.2 Unit (mkWebhookEnv 100000 exPage)
      (storeOf exMappingKeepWrote) exPayload exPage exSavedNote
      rfl (by decide) rfl rfl rfl rfl⟩

/-- C4, counterexample: the spec scenario — mapping for `doc1` with left
version `t1`, `lastWriteOrigin = left`, last write 5000 ms ago; event
from the left for `doc1` still at `t1` — terminates skipped-COOLDOWN,
not skipped-unchanged: the cooldown check runs first and the webhook has
no version check at all. -/
theorem c4_check_order_counterexample :
    webhookHandler (mkWebhookEnv 5000 exPageC4) (storeOf exMappingC4) exPayloadC4
      = { outcome := WebhookOutcome.skippedCooldown, store := storeOf exMappingC4,
          keepWriteCalls := 0 } :=
  rfl

/-- C4, amended: for a mapped page whose last write came from the same
origin (notion) less than 30 s ago, the webhook terminates
skipped-cooldown with no Keep write call and no mapping mutation,
regardless of whether the version advanced — the cooldown check fires
first, and no version check exists on this path. -/
theorem c4_cooldown_fires_first_amended (Fields : Type) (env : WebhookEnv Fields)
    (store : Store) (payload : NotionWebhookPayload) (page : NotionPage)
    (m : SyncMapping) (h1 : payload.object = "page")
    (h2 : ¬ payload.type = "page_deleted")
    (h3 : env.getNotionPage payload.id = Except.ok page)
    (h4 : getMapping store payload.id = some m)
    (h5 : m.lastWriteOrigin = Origin.notion)
    (h6 : env.now - m.lastWriteTimestamp < 30000) :
    webhookHandler env store payload
      = { outcome := WebhookOutcome.skippedCooldown, store := store,
          keepWriteCalls := 0 } := by
  apply webhookHandler_cooldown env store payload page h1 h2 h3
  rw [h4, shouldSkip_origin_eq h5.symm]
  simpa using h6

/-- Witness for the amended C4 at the spec scenario values. -/
theorem c4_cooldown_fires_first_amended_witness :
    getMapping (storeOf exMappingC4) exPayloadC4.id = some exMappingC4
      ∧ (5000 : Int) - exMappingC4.lastWriteTimestamp < 30000
      ∧ webhookHandler (mkWebhookEnv 5000 exPageC4) (storeOf exMappingC4) exPayloadC4
          = { outcome := WebhookOutcome.skippedCooldown, store := storeOf exMappingC4,
              keepWriteCalls := 0 } :=
  ⟨rfl, by decide,
    c4_cooldown_fires_first_amended Unit (mkWebhookEnv 5000 exPageC4)
      (storeOf exMappingC4) exPayloadC4 exPageC4 exMappingC4
      rfl (by decide) rfl rfl rfl (by decide)⟩

/-- C6: a failed write to the other side mutates nothing.  On the
webhook, a rejected Keep write yields a failed response with the store
returned untouched; in the poll loop, a rejected Notion write only
appends one error entry — counters and store (hence every stored
mapping, both version markers, `lastWriteOrigin` and
`lastWriteTimestamp`) are unchanged. -/
theorem c6_write_failure_atomicity :
    (∀ (Fields : Type) (env : WebhookEnv Fields) (store : Store)
        (payload : NotionWebhookPayload) (page : NotionPage) (e : String),
      payload.object = "page" → ¬ payload.type = "page_deleted" →
      env.getNotionPage payload.id = Except.ok page →
      shouldSkipDueToCooldown env.now (getMapping store payload.id)
        Origin.notion 30000 = false →
      env.upsertKeepNote (existingNameOrNull (getMapping store payload.id))
        (env.notionToKeep page) = Except.error e →
      webhookHandler env store payload
        = { outcome := WebhookOutcome.failed e, store := store, keepWriteCalls := 1 })
      ∧ (∀ (Props : Type) (env : PollEnv Props) (acc : PollAcc) (note : KeepNote)
            (e : String),
          note.trashed = false → ¬ note.name = "" →
          shouldSkipDueToCooldown env.now (getMappingByKeepName acc.store note.name)
            Origin.keep 30000 = false →
          noteIsUnchanged (getMappingByKeepName acc.store note.name) note = false →
          noteWrite env (getMappingByKeepName acc.store note.name) note
            = Except.error e →
          processNote env acc note
            = { acc with errors := acc.errors ++ [(errorId note, e)] }) :=
  ⟨fun _ env store payload page e h1 h2 h3 h4 h5 =>
      webhookHandler_write_failed env store payload page e h1 h2 h3 h4 h5,
    fun _ env acc note e h1 h2 h3 h4 h5 =>
      processNote_write_error env acc note e h1 h2 h3 h4 h5⟩

/-- Witness for C6: a rejected Keep write on the webhook and a rejected
Notion create in the poll loop, both leaving the store untouched. -/
theorem c6_write_failure_atomicity_witness :
    webhookHandler (mkWebhookEnvKeepDown 100000 exPage) (storeOf exMappingKeepWrote)
        exPayload
        = { outcome := WebhookOutcome.failed "keep down",
            store := storeOf exMappingKeepWrote, keepWriteCalls := 1 }
      ∧ processNote pollEnvBadCreate (pollInit emptyStore) exNoteBad
          = { pollInit emptyStore with
              errors := (pollInit emptyStore).errors ++ [(errorId exNoteBad, "boom")] } :=
  ⟨c6_write_failure_atomicity.1 Unit (mkWebhookEnvKeepDown 100000 exPage)
      (storeOf exMappingKeepWrote) exPayload exPage "keep down"
      rfl (by decide) rfl rfl rfl,
    c6_write_failure_atomicity.2 String pollEnvBadCreate (pollInit emptyStore)
      exNoteBad "boom" rfl (by decide) rfl rfl rfl⟩

/-- C7: batch isolation.  If, in the state reached after the notes `pre`,
the note `bad` passes the guards but its Notion write is rejected with
message `e`, then the whole poll batch `pre ++ bad :: post` equals the
batch that processes `pre`, appends exactly one error entry
`(bad.name, e)` — touching no counter and no mapping — and then still
processes every note of `post` from that state. -/
theorem c7_batch_isolation (Props : Type) (env : PollEnv Props) (store : Store)
    (pre post : List KeepNote) (bad : KeepNote) (e : String) (accPre : PollAcc)
    (hpre : pre.foldl (processNote env) (pollInit store) = accPre)
    (h1 : bad.trashed = false) (h2 : ¬ bad.name = "")
    (h3 : shouldSkipDueToCooldown env.now (getMappingByKeepName accPre.store bad.name)
            Origin.keep 30000 = false)
    (h4 : noteIsUnchanged (getMappingByKeepName accPre.store bad.name) bad = false)
    (h5 : noteWrite env (getMappingByKeepName accPre.store bad.name) bad
            = Except.error e) :
    pollKeepHandler env store (pre ++ bad :: post)
      = pollFinalize env (post.foldl (processNote env)
          { accPre with errors := accPre.errors ++ [(errorId bad, e)] }) := by
  unfold pollKeepHandler
  rw [List.foldl_append, hpre, List.foldl_cons,
    processNote_write_error env accPre bad e h1 h2 h3 h4 h5]

/-- Witness for C7: a two-note batch whose first note's create is
rejected still attempts and applies the second note. -/
theorem c7_batch_isolation_witness :
    pollKeepHandler pollEnvBadCreate emptyStore ([] ++ exNoteBad :: [exNoteOk])
        = pollFinalize pollEnvBadCreate ([exNoteOk].foldl (processNote pollEnvBadCreate)
            { pollInit emptyStore with
              errors := (pollInit emptyStore).errors ++ [(errorId exNoteBad, "boom")] })
      ∧ (pollKeepHandler pollEnvBadCreate emptyStore
            ([] ++ exNoteBad :: [exNoteOk])).processed = 1
      ∧ (pollKeepHandler pollEnvBadCreate emptyStore
            ([] ++ exNoteBad :: [exNoteOk])).created = 1
      ∧ (pollKeepHandler pollEnvBadCreate emptyStore
            ([] ++ exNoteBad :: [exNoteOk])).errors = [("notes/bad", "boom")] :=
  ⟨c7_batch_isolation String pollEnvBadCreate emptyStore [] [exNoteOk] exNoteBad
      "boom" (pollInit emptyStore) rfl rfl (by decide) rfl rfl rfl,
    rfl, rfl, rfl⟩

/-- C9, counterexample: the reverse lookup IS a linear scan.  On a store
holding three mappings and a right-side identifier matching none of
them, the `find` inside `getMappingByKeepName` examines all three stored
mappings before returning nothing — there is no secondary index serving
the lookup. -/
theorem c9_reverse_index_counterexample :
    getMappingByKeepNameScanSteps exStoreThree "notes/zz" = 3
      ∧ (getSyncState exStoreThree).mappings.length = 3
      ∧ getMappingByKeepName exStoreThree "notes/zz" = none :=
  ⟨rfl, rfl, rfl⟩

lemma scanStepsAux_eq_length (l : List (String × SyncMapping)) (k : String)
    (h : ∀ p ∈ l, p.2.keepNoteName ≠ k) : scanStepsAux l k = l.length := by
  induction l with
  | nil => rfl
  | cons p rest ih =>
    have hp : ¬ p.2.keepNoteName = k := h p (List.mem_cons_self p rest)
    have hrest : ∀ q ∈ rest, q.2.keepNoteName ≠ k :=
      fun q hq => h q (List.mem_cons_of_mem p hq)
    simp [scanStepsAux, hp, ih hrest, Nat.add_comm]

/-- C9, amended: `getMappingByKeepName` performs a linear scan of the
primary `state.mappings` record (`Object.keys(state.mappings).find`):
for any right-side identifier with no matching mapping it examines every
stored mapping and returns nothing.  No secondary index keyed by the
right-side identifier exists in the persisted state. -/
theorem c9_reverse_lookup_is_linear_scan (s : Store) (keepNoteName : String)
    (h : ∀ p ∈ (getSyncState s).mappings, p.2.keepNoteName ≠ keepNoteName) :
    getMappingByKeepNameScanSteps s keepNoteName
        = (getSyncState s).mappings.length
      ∧ getMappingByKeepName s keepNoteName = none := by
  constructor
  · exact scanStepsAux_eq_length (getSyncState s).mappings keepNoteName h
  · unfold getMappingByKeepName
    have hfind : (getSyncState s).mappings.find?
        (fun p => p.2.keepNoteName == keepNoteName) = none := by
      rw [List.find?_eq_none]
      intro p hp
      simpa using h p hp
    rw [hfind]

/-- Witness for the amended C9 on the concrete three-mapping store. -/
theorem c9_reverse_lookup_is_linear_scan_witness :
    (∀ p ∈ (getSyncState exStoreThree).mappings, p.2.keepNoteName ≠ "notes/zz")
      ∧ (getMappingByKeepNameScanSteps exStoreThree "notes/zz"
            = (getSyncState exStoreThree).mappings.length
          ∧ getMappingByKeepName exStoreThree "notes/zz" = none) :=
  ⟨by decide, c9_reverse_lookup_is_linear_scan exStoreThree "notes/zz" (by decide)⟩

lemma processNote_counter_le {Props : Type} (env : PollEnv Props) (acc : PollAcc)
    (note : KeepNote) (h : acc.processed ≤ acc.created + acc.updated) :
    (processNote env acc note).processed
      ≤ (processNote env acc note).created + (processNote env acc note).updated := by
  unfold processNote
  split
  · exact h
  split
  · exact h
  dsimp only
  split
  · exact h
  split
  · exact h
  split
  · exact h
  · rename_i page pid kind heq
    rcases kind with _ | _ <;> split <;> simp <;> omega

lemma processNote_counter_eq {Props : Type} (env : PollEnv Props)
    (hU : ∀ m : SyncMapping, env.upsertExc m = none) (acc : PollAcc) (note : KeepNote)
    (h : acc.processed = acc.created + acc.updated) :
    (processNote env acc note).processed
      = (processNote env acc note).created + (processNote env acc note).updated := by
  unfold processNote
  split
  · exact h
  split
  · exact h
  dsimp only
  split
  · exact h
  split
  · exact h
  split
  · exact h
  · rename_i page pid kind heq
    rcases kind with _ | _ <;> rw [hU] <;> simp <;> omega

lemma foldl_processNote_le {Props : Type} (env : PollEnv Props) :
    ∀ (notes : List KeepNote) (acc : PollAcc),
      acc.processed ≤ acc.created + acc.updated →
      (notes.foldl (processNote env) acc).processed
        ≤ (notes.foldl (processNote env) acc).created
          + (notes.foldl (processNote env) acc).updated := by
  intro notes
  induction notes with
  | nil => intro acc h; simpa using h
  | cons n rest ih =>
    intro acc h
    rw [List.foldl_cons]
    exact ih _ (processNote_counter_le env acc n h)

lemma foldl_processNote_eq {Props : Type} (env : PollEnv Props)
    (hU : ∀ m : SyncMapping, env.upsertExc m = none) :
    ∀ (notes : List KeepNote) (acc : PollAcc),
      acc.processed = acc.created + acc.updated →
      (notes.foldl (processNote env) acc).processed
        = (notes.foldl (processNote env) acc).created
          + (notes.foldl (processNote env) acc).updated := by
  intro notes
  induction notes with
  | nil => intro acc h; simpa using h
  | cons n rest ih =>
    intro acc h
    rw [List.foldl_cons]
    exact ih _ (processNote_counter_eq env hU acc n h)

/-- C10, counterexample: `processed = created + updated` can fail.  With a
single-note batch whose Notion create succeeds but whose mapping upsert
is rejected by the KV store, the summary reports `created = 1` and
`processed = 0` with one error entry: the note was counted in `created`
but not in `processed`. -/
theorem c10_summary_counterexample :
    (pollKeepHandler pollEnvKvDown emptyStore [exNoteOk]).processed = 0
      ∧ (pollKeepHandler pollEnvKvDown emptyStore [exNoteOk]).created = 1
      ∧ (pollKeepHandler pollEnvKvDown emptyStore [exNoteOk]).updated = 0
      ∧ (pollKeepHandler pollEnvKvDown emptyStore [exNoteOk]).errors
          = [("notes/ok", "kv unavailable")]
      ∧ ¬ ((pollKeepHandler pollEnvKvDown emptyStore [exNoteOk]).processed
            = (pollKeepHandler pollEnvKvDown emptyStore [exNoteOk]).created
              + (pollKeepHandler pollEnvKvDown emptyStore [exNoteOk]).updated) :=
  ⟨rfl, rfl, rfl, rfl, by decide⟩

/-- C10, amended: the summary always satisfies
`processed ≤ created + updated`, with equality whenever no KV upsert
inside `upsertMapping` is rejected (`processed` counts exactly the notes
whose cross-write and mapping upsert both succeeded; skipped or erroring
notes are never counted in `processed`); a trashed note or a note with
an empty name leaves the whole accumulator — every counter, the error
list and the store — untouched. -/
theorem c10_summary_accounting_amended :
    (∀ (Props : Type) (env : PollEnv Props) (store : Store) (notes : List KeepNote),
        (pollKeepHandler env store notes).processed
          ≤ (pollKeepHandler env store notes).created
            + (pollKeepHandler env store notes).updated)
      ∧ (∀ (Props : Type) (env : PollEnv Props) (store : Store) (notes : List KeepNote),
          (∀ m : SyncMapping, env.upsertExc m = none) →
          (pollKeepHandler env store notes).processed
            = (pollKeepHandler env store notes).created
              + (pollKeepHandler env store notes).updated)
      ∧ (∀ (Props : Type) (env : PollEnv Props) (acc : PollAcc) (note : KeepNote),
          note.trashed = true ∨ note.name = "" → processNote env acc note = acc) := by
  refine ⟨?_, ?_, ?_⟩
  · intro Props env store notes
    have hl := foldl_processNote_le env notes (pollInit store) (by simp [pollInit])
    simpa [pollKeepHandler, pollFinalize] using hl
  · intro Props env store notes hU
    have hl := foldl_processNote_eq env hU notes (pollInit store) (by simp [pollInit])
    simpa [pollKeepHandler, pollFinalize] using hl
  · intro Props env acc note h
    unfold processNote
    rcases h with h | h
    · simp [h]
    · simp [h]

/-- Witness for the amended C10 on a concrete successful batch and a
concrete trashed note. -/
theorem c10_summary_accounting_amended_witness :
    (pollKeepHandler pollEnvOk emptyStore [exNoteOk]).processed
        ≤ (pollKeepHandler pollEnvOk emptyStore [exNoteOk]).created
          + (pollKeepHandler pollEnvOk emptyStore [exNoteOk]).updated
      ∧ (pollKeepHandler pollEnvOk emptyStore [exNoteOk]).processed
          = (pollKeepHandler pollEnvOk emptyStore [exNoteOk]).created
            + (pollKeepHandler pollEnvOk emptyStore [exNoteOk]).updated
      ∧ processNote pollEnvOk (pollInit emptyStore) exNoteTrashed = pollInit emptyStore :=
  ⟨c10_summary_accounting_amended.1 String pollEnvOk emptyStore [exNoteOk],
    c10_summary_accounting_amended.2.1 String pollEnvOk emptyStore [exNoteOk]
      (fun _ => rfl),
    c10_summary_accounting_amended.2.2 String pollEnvOk (pollInit emptyStore)
      exNoteTrashed (Or.inl rfl)⟩

end MiscApi
